import Mathlib

/-!
Shallow embedding of the akt actor library (Rust, built on tokio) together
with proofs about its observable behaviour.

Every definition below is translated from the repository sources
(src/actor.rs, src/address.rs, src/context.rs, src/handler.rs, src/pool.rs).
tokio is an external dependency of that code; where a definition depends on
a tokio primitive (mpsc channels, oneshot slots, the select! multiplexer,
interval timers) the primitive's documented behaviour is modelled, and the
outcomes of scheduling races that the Rust code leaves to the runtime are
passed in as explicit oracle parameters (Bool flags, poll orders, per-tick
outcome functions).  Fields such as a channel's live-sender count stand for
the reference counts tokio maintains internally.
-/

namespace Akt

/-- ActorState from src/context.rs: the four lifecycle states of an actor,
in the order the state machine is meant to visit them. -/
inductive ActorState where
  | Starting
  | Started
  | Stopping
  | Stopped
deriving DecidableEq, Repr

/-- Numeric position of a lifecycle state in the linear order
Starting, Started, Stopping, Stopped. -/
def ActorState.rank : ActorState → Nat
  | ActorState.Starting => 0
  | ActorState.Started => 1
  | ActorState.Stopping => 2
  | ActorState.Stopped => 3

/-- Forward order on lifecycle states: stateLe a b holds when b is at or
after a in the lifecycle order, i.e. moving from a to b is not a backward
transition. -/
def stateLe (a b : ActorState) : Prop :=
  a.rank ≤ b.rank

instance : DecidableRel stateLe :=
  fun a b => Nat.decLe a.rank b.rank

/-- Shared state of a tokio bounded mpsc channel, used for the actor's
public mailbox (actor.rs, mpsc::channel with capacity 16): the number of
live strong Sender clones, the queued items, and whether the Receiver half
is still alive.  Capacity is irrelevant to the claims proved here and is
not modelled. -/
structure MpscChan (α : Type) where
  strongSenders : Nat
  buffer : List α
  receiverAlive : Bool
deriving DecidableEq, Repr

/-- Shared state of a tokio unbounded mpsc channel, used for the actor's
private mailbox (actor.rs) and for the pool's rotating buffer (pool.rs):
the number of live Sender clones and the queued items. -/
structure UChan (α : Type) where
  senders : Nat
  buffer : List α
deriving DecidableEq, Repr

/-- Address from src/address.rs: wraps the producer side of the public
bounded queue.  The α parameter stands for the erased envelope type. -/
structure Address (α : Type) where
  tx : MpscChan α
deriving DecidableEq, Repr

/-- WeakAddress from src/address.rs: wraps a tokio WeakSender over the same
public queue. -/
structure WeakAddress (α : Type) where
  tx : MpscChan α
deriving DecidableEq, Repr

/-- UnboundedAddress from src/address.rs: wraps the producer side of the
private unbounded queue. -/
structure UnboundedAddress (α : Type) where
  tx : UChan α
deriving DecidableEq, Repr

/-- ActorSendError from src/address.rs: the two error values send can
return. -/
inductive ActorSendError where
  | FailedToDeliver
  | FailedToGetResponse
deriving DecidableEq, Repr

/-- Context from src/context.rs: the actor's own weak address, its private
address, and the lifecycle state field. -/
structure Context (α : Type) where
  address : WeakAddress α
  private_address : UnboundedAddress α
  state : ActorState

/-- Context::stop from src/context.rs: unconditionally writes Stopping into
the state field, leaving every other field untouched. -/
def Context.stop {α : Type} (c : Context α) : Context α :=
  { c with state := ActorState.Stopping }

/-- tokio mpsc Sender::send on the public queue: succeeds and enqueues the
message iff the Receiver half is still alive, and fails otherwise (the
channel is closed or unreachable). -/
def mpscSend {α : Type} (c : MpscChan α) (m : α) : Except Unit (MpscChan α) :=
  if c.receiverAlive then Except.ok { c with buffer := c.buffer ++ [m] } else Except.error ()

/-- Awaiting a tokio oneshot Receiver: the slot is either filled with a
value before the Sender is dropped, or dropped unfilled.  The Option
parameter is the oracle for which of the two happened. -/
def oneshotRecv {R : Type} (slot : Option R) : Except Unit R :=
  match slot with
  | some r => Except.ok r
  | none => Except.error ()

/-- Address::send from src/address.rs: create a oneshot pair, enqueue the
packed message on the public queue mapping an enqueue failure to
FailedToDeliver, then await the response slot mapping a dropped slot to
FailedToGetResponse.  The slot oracle says whether the response slot was
eventually filled (by the dispatch modelled in MessageWithSender.handle)
and with which value. -/
def Address.send {α R : Type} (a : Address α) (m : α) (slot : Option R) :
    Except ActorSendError R :=
  match mpscSend a.tx m with
  | Except.error _ => Except.error ActorSendError.FailedToDeliver
  | Except.ok _ =>
    match oneshotRecv slot with
    | Except.error _ => Except.error ActorSendError.FailedToGetResponse
    | Except.ok r => Except.ok r

/-- Address::downgrade from src/address.rs, delegating to tokio
Sender::downgrade: produces a WeakSender over the same channel and leaves
the channel state, in particular the strong sender count, unchanged. -/
def Address.downgrade {α : Type} (a : Address α) : WeakAddress α :=
  { tx := a.tx }

/-- WeakAddress::upgrade from src/address.rs, delegating to tokio
WeakSender::upgrade: yields a fresh strong Sender, incrementing the strong
sender count, iff at least one strong Sender is still alive; otherwise
yields nothing. -/
def WeakAddress.upgrade {α : Type} (w : WeakAddress α) : Option (Address α) :=
  if 0 < w.tx.strongSenders then
    some { tx := { w.tx with strongSenders := w.tx.strongSenders + 1 } }
  else none

/-- Which side of the select! race in Envelope::handle for
MessageWithSender (src/handler.rs) completed first: the response
destination (the oneshot receiver) was observed closed, or the handler
computation finished. -/
inductive RaceWinner where
  | destClosed
  | handlerDone
deriving DecidableEq, Repr

/-- Envelope::handle for MessageWithSender from src/handler.rs: races
tx.closed() against actor.handle(...).  If the destination died first the
handling computation is dropped and nothing is written; if handling
finished first, tx.send(result) performs the single write, which itself is
discarded when the receiver was dropped in the meantime (destAliveAtSend).
The returned list collects the values actually written into the response
slot. -/
def MessageWithSender.handle {R : Type} (winner : RaceWinner) (destAliveAtSend : Bool)
    (result : R) : List R :=
  match winner with
  | RaceWinner.destClosed => []
  | RaceWinner.handlerDone => if destAliveAtSend then [result] else []

/-- Snapshot of the two mailboxes of one actor at a loop iteration
(actor.rs): the pending items of the private unbounded queue, the pending
items of the public bounded queue, and whether the public queue is closed
(all strong addresses dropped).  The private queue can never report closure
while the loop runs, because the actor's own Context holds a clone of the
private sender. -/
structure Mailboxes (M : Type) where
  privQ : List M
  pubQ : List M
  pubClosed : Bool
deriving DecidableEq, Repr

/-- Poll order chosen by the tokio select! in the actor loop: without the
biased keyword, select! polls its branches in a randomly chosen order and
completes with the first ready one, so the order is an oracle. -/
inductive Polled where
  | privFirst
  | pubFirst
deriving DecidableEq, Repr

/-- Outcome of the select! over the two mailboxes. -/
inductive SelectOutcome (M : Type) where
  | privMsg (m : M) (after : Mailboxes M)
  | pubMsg (m : M) (after : Mailboxes M)
  | closedExit
  | wouldBlock
deriving DecidableEq, Repr

/-- Polling private_addr_rx.recv(): ready with the head message when one is
queued, pending otherwise. -/
def pollPriv {M : Type} (mb : Mailboxes M) : Option (M × Mailboxes M) :=
  match mb.privQ with
  | m :: rest => some (m, { mb with privQ := rest })
  | [] => none

/-- Polling addr_rx.recv() on the public queue: ready with the head message
when one is queued, ready with the closure report (recv returns None) when
the queue is empty and closed, pending otherwise. -/
def pollPub {M : Type} (mb : Mailboxes M) : Option (Option (M × Mailboxes M)) :=
  match mb.pubQ with
  | m :: rest => some (some (m, { mb with pubQ := rest }))
  | [] => if mb.pubClosed then some none else none

/-- The select! from the actor loop in src/actor.rs: poll the two recv
branches in the oracle-chosen order and take the first ready one.  A
closure report from the public branch exits the loop (the None arm). -/
def selectRecv {M : Type} (order : Polled) (mb : Mailboxes M) : SelectOutcome M :=
  match order with
  | Polled.privFirst =>
    match pollPriv mb with
    | some (m, mb2) => SelectOutcome.privMsg m mb2
    | none =>
      match pollPub mb with
      | some (some (m, mb2)) => SelectOutcome.pubMsg m mb2
      | some none => SelectOutcome.closedExit
      | none => SelectOutcome.wouldBlock
  | Polled.pubFirst =>
    match pollPub mb with
    | some (some (m, mb2)) => SelectOutcome.pubMsg m mb2
    | some none => SelectOutcome.closedExit
    | none =>
      match pollPriv mb with
      | some (m, mb2) => SelectOutcome.privMsg m mb2
      | none => SelectOutcome.wouldBlock

/-- C3: for every call to Address::send, the outcome is exactly one of the
handler's real result (the value the dispatch wrote into the slot), the
error FailedToDeliver when the public queue is closed at enqueue time, or
the error FailedToGetResponse when the enqueue succeeded but the slot was
dropped unfilled; the three input cases are exhaustive and each produces
exactly one outcome, so a result and an error are never both produced. -/
theorem c3_send_outcomes : ∀ {α R : Type} (n : Nat) (buf : List α) (m : α)
    (slot : Option R) (r : R),
    Address.send { tx := { strongSenders := n, buffer := buf, receiverAlive := false } } m slot =
      Except.error ActorSendError.FailedToDeliver ∧
    Address.send { tx := { strongSenders := n, buffer := buf, receiverAlive := true } } m
      (none : Option R) = Except.error ActorSendError.FailedToGetResponse ∧
    Address.send { tx := { strongSenders := n, buffer := buf, receiverAlive := true } } m
      (some r) = Except.ok r ∧
    (∀ (a : Address α), (∃ v, Address.send a m slot = Except.ok v ∧ slot = some v) ∨
      Address.send a m slot = Except.error ActorSendError.FailedToDeliver ∨
      Address.send a m slot = Except.error ActorSendError.FailedToGetResponse) := by
  intro α R n buf m slot r
  refine ⟨rfl, rfl, rfl, ?_⟩
  intro a
  rcases a with ⟨⟨ns, b, ra⟩⟩
  cases ra
  · right; left; rfl
  · cases slot with
    | none => right; right; rfl
    | some v => left; exact ⟨v, rfl, rfl⟩

/-- C4: dispatch of a request envelope races the death of the response
destination against completion of the handler and writes into the
single-use response slot only when handling finished first; in every case
at most one response is written, exactly one when handling won the race and
the receiver is still there, and none when the requester lost interest. -/
theorem c4_dispatch_race : ∀ {R : Type} (winner : RaceWinner) (b : Bool) (r : R),
    (MessageWithSender.handle winner b r).length ≤ 1 ∧
    MessageWithSender.handle RaceWinner.handlerDone true r = [r] ∧
    MessageWithSender.handle RaceWinner.handlerDone false r = ([] : List R) ∧
    MessageWithSender.handle RaceWinner.destClosed b r = ([] : List R) := by
  intro R winner b r
  refine ⟨?_, rfl, rfl, ?_⟩
  · cases winner with
    | destClosed => exact Nat.zero_le 1
    | handlerDone => cases b <;> simp [MessageWithSender.handle]
  · rfl

/-- C5: evaluation of the loop's select! at a state where both queues hold
a ready message.  Because the select! in src/actor.rs is not biased, the
poll order is unspecified; when the public branch is polled first the
public message is dispatched even though the priority queue has ready work,
and when the private branch is polled first the priority message is
dispatched.  This refutes the claim that the priority message is always
dispatched first, and contradicts the code's own doc comment on
Context::private_address, which calls the private address prioritized. -/
theorem c5_select_not_prioritized :
    selectRecv Polled.pubFirst { privQ := [0], pubQ := [1], pubClosed := false } =
      SelectOutcome.pubMsg 1 { privQ := [0], pubQ := [], pubClosed := false } ∧
    selectRecv Polled.privFirst { privQ := [0], pubQ := [1], pubClosed := false } =
      SelectOutcome.privMsg 0 { privQ := [], pubQ := [1], pubClosed := false } := by
  exact ⟨rfl, rfl⟩

/-- C8: a weak address upgrades to a new strong address iff at least one
live strong reference to the public queue's producer side exists (yielding
a channel with one more strong sender), and upgrades to nothing when no
strong sender remains; downgrading a strong address produces a weak address
over the very same channel state, with no effect on the actor's
liveness. -/
theorem c8_upgrade_downgrade : ∀ {α : Type} (b : List α) (n : Nat) (ra : Bool),
    WeakAddress.upgrade { tx := { strongSenders := 0, buffer := b, receiverAlive := ra } } =
      (none : Option (Address α)) ∧
    WeakAddress.upgrade { tx := { strongSenders := n + 1, buffer := b, receiverAlive := ra } } =
      some { tx := { strongSenders := n + 2, buffer := b, receiverAlive := ra } } ∧
    Address.downgrade { tx := { strongSenders := n, buffer := b, receiverAlive := ra } } =
      ({ tx := { strongSenders := n, buffer := b, receiverAlive := ra } } : WeakAddress α) := by
  intro α b n ra
  refine ⟨?_, ?_, rfl⟩
  · simp [WeakAddress.upgrade]
  · simp [WeakAddress.upgrade]

/-- C9 counterexample: Context::stop writes Stopping unconditionally, so
calling stop() on a Context whose state is already Stopped does not leave
the state unchanged, it moves it back to Stopping. -/
theorem c9_counterexample :
    ¬ ((Context.stop
        { address := { tx := { strongSenders := 0, buffer := [], receiverAlive := false } },
          private_address := { tx := { senders := 0, buffer := [] } },
          state := ActorState.Stopped } : Context Unit).state = ActorState.Stopped) := by
  decide

/-- Resolved outcome of the select! receive for one iteration of the actor
loop in src/actor.rs: a private-queue message was dispatched, a
public-queue message was dispatched, or the public queue reported closure
(recv returned None because every strong address was dropped and no
messages remained queued).  The callsStop flag is the only effect a user
handler can have on the lifecycle state: whether the handler invoked
Context::stop at least once while running. -/
inductive RecvEvent where
  | privMsg (callsStop : Bool)
  | pubMsg (callsStop : Bool)
  | pubClosed
deriving DecidableEq, Repr

/-- Oracle input for one iteration of the actor loop: what on_stopping
would return if consulted this iteration (proceed), whether that hook would
call Context::stop while running (hookStops), and the resolved receive
outcome. -/
structure IterInput where
  proceed : Bool
  hookStops : Bool
  recv : RecvEvent
deriving DecidableEq, Repr

/-- Effect of one iteration of the loop in Actor::run (src/actor.rs): the
state after the iteration, the values assigned to context.state during it
(every Context::stop call writes Stopping), whether on_stopping was
invoked, whether the loop breaks, and whether the break came from the
public queue's closure report rather than from on_stopping's consent. -/
structure IterEffect where
  newState : ActorState
  recorded : List ActorState
  stoppingCalls : Nat
  exits : Bool
  byClosure : Bool
deriving DecidableEq, Repr

/-- One iteration of the processing loop in Actor::run, translated from
src/actor.rs: when the state is Stopping, on_stopping is invoked first
(recording a Stopping assignment if the hook itself calls stop) and its
true return breaks the loop; otherwise the select! outcome is processed,
a closure report breaks the loop, and a dispatched message records a
Stopping assignment exactly when its handler called Context::stop. -/
def loopIter (s : ActorState) (i : IterInput) : IterEffect :=
  if s = ActorState.Stopping then
    if i.proceed then
      { newState := s, recorded := if i.hookStops then [ActorState.Stopping] else [],
        stoppingCalls := 1, exits := true, byClosure := false }
    else
      match i.recv with
      | RecvEvent.pubClosed =>
        { newState := s, recorded := if i.hookStops then [ActorState.Stopping] else [],
          stoppingCalls := 1, exits := true, byClosure := true }
      | RecvEvent.privMsg c =>
        { newState := if c then ActorState.Stopping else s,
          recorded := (if i.hookStops then [ActorState.Stopping] else []) ++
            (if c then [ActorState.Stopping] else []),
          stoppingCalls := 1, exits := false, byClosure := false }
      | RecvEvent.pubMsg c =>
        { newState := if c then ActorState.Stopping else s,
          recorded := (if i.hookStops then [ActorState.Stopping] else []) ++
            (if c then [ActorState.Stopping] else []),
          stoppingCalls := 1, exits := false, byClosure := false }
  else
    match i.recv with
    | RecvEvent.pubClosed =>
      { newState := s, recorded := [], stoppingCalls := 0, exits := true, byClosure := true }
    | RecvEvent.privMsg c =>
      { newState := if c then ActorState.Stopping else s,
        recorded := if c then [ActorState.Stopping] else [],
        stoppingCalls := 0, exits := false, byClosure := false }
    | RecvEvent.pubMsg c =>
      { newState := if c then ActorState.Stopping else s,
        recorded := if c then [ActorState.Stopping] else [],
        stoppingCalls := 0, exits := false, byClosure := false }

/-- Result of running the processing loop over a finite list of iteration
inputs (the fuel): the state when the loop stops being observed, every
value assigned to context.state during the loop, how many times on_stopping
was invoked, whether the loop actually exited within the supplied inputs,
and whether the exit came from the closure report. -/
structure LoopResult where
  finalState : ActorState
  states : List ActorState
  stoppingCalls : Nat
  stoppedExit : Bool
  exitByClosure : Bool
deriving DecidableEq, Repr

/-- The processing loop of Actor::run folded over a list of iteration
inputs. -/
def runLoop : ActorState → List IterInput → LoopResult
  | s, [] =>
    { finalState := s, states := [], stoppingCalls := 0,
      stoppedExit := false, exitByClosure := false }
  | s, i :: rest =>
    let e := loopIter s i
    if e.exits then
      { finalState := s, states := e.recorded, stoppingCalls := e.stoppingCalls,
        stoppedExit := true, exitByClosure := e.byClosure }
    else
      let r := runLoop e.newState rest
      { finalState := r.finalState, states := e.recorded ++ r.states,
        stoppingCalls := e.stoppingCalls + r.stoppingCalls,
        stoppedExit := r.stoppedExit, exitByClosure := r.exitByClosure }

/-- Result of the whole spawned task of Actor::run: the full history of
values assigned to context.state (starting with the Starting value given to
Context::new), the number of on_stopping and on_stopped invocations,
whether the task ran to completion within the supplied inputs, and whether
the loop exit came from the closure report. -/
structure RunResult where
  trace : List ActorState
  stoppingCalls : Nat
  stoppedCalls : Nat
  finished : Bool
  exitByClosure : Bool
deriving DecidableEq, Repr

/-- The spawned task of Actor::run, translated from src/actor.rs: the
Context is created in Starting, on_start runs (startStops says whether it
calls Context::stop), the state is then unconditionally set to Started, the
processing loop runs, and on loop exit on_stopped runs (stoppedStops says
whether it calls Context::stop) followed by the final assignment of
Stopped. -/
def runActor (startStops stoppedStops : Bool) (inputs : List IterInput) : RunResult :=
  let r := runLoop ActorState.Started inputs
  let startTrace := [ActorState.Starting] ++
    (if startStops then [ActorState.Stopping] else []) ++ [ActorState.Started]
  if r.stoppedExit then
    { trace := startTrace ++ r.states ++
        (if stoppedStops then [ActorState.Stopping] else []) ++ [ActorState.Stopped],
      stoppingCalls := r.stoppingCalls, stoppedCalls := 1, finished := true,
      exitByClosure := r.exitByClosure }
  else
    { trace := startTrace ++ r.states, stoppingCalls := r.stoppingCalls,
      stoppedCalls := 0, finished := false, exitByClosure := false }

/-- Every state value recorded during a loop iteration is Stopping, because
Context::stop is the only state mutation available to hooks and
handlers. -/
theorem loopIter_recorded (s : ActorState) (i : IterInput) :
    ∀ x ∈ (loopIter s i).recorded, x = ActorState.Stopping := by
  intro x hx
  rcases i with ⟨p, q, r⟩
  rcases r with c | c | _ <;>
    by_cases hs : s = ActorState.Stopping <;>
      cases p <;> cases q <;>
        first
          | (cases c <;> simp [loopIter, hs] at hx <;> simp [hx])
          | (simp [loopIter, hs] at hx <;> simp [hx])

/-- Once the state is Stopping, a loop iteration keeps it Stopping. -/
theorem loopIter_stopping_newState (i : IterInput) :
    (loopIter ActorState.Stopping i).newState = ActorState.Stopping := by
  rcases i with ⟨p, q, r⟩
  cases p <;> rcases r with c | c | _ <;> simp [loopIter]

/-- Once the state is Stopping, it is still Stopping wherever the loop
stops being observed. -/
theorem runLoop_stopping_final : ∀ (l : List IterInput),
    (runLoop ActorState.Stopping l).finalState = ActorState.Stopping := by
  intro l
  induction l with
  | nil => rfl
  | cons i rest ih =>
    simp only [runLoop]
    by_cases he : (loopIter ActorState.Stopping i).exits
    · simp [he]
    · simp [he, loopIter_stopping_newState i, ih]

/-- Every state value recorded during the whole loop is Stopping. -/
theorem states_stopping : ∀ (l : List IterInput) (s : ActorState),
    ∀ x ∈ (runLoop s l).states, x = ActorState.Stopping := by
  intro l
  induction l with
  | nil => intro s x hx; simp [runLoop] at hx
  | cons i rest ih =>
    intro s x hx
    simp only [runLoop] at hx
    by_cases he : (loopIter s i).exits
    · simp [he] at hx
      exact loopIter_recorded s i x hx
    · simp [he] at hx
      rcases hx with hx | hx
      · exact loopIter_recorded s i x hx
      · exact ih _ x hx

/-- Splitting a loop run at a point the loop has not yet exited. -/
theorem runLoop_append (l1 l2 : List IterInput) : ∀ (s : ActorState),
    (runLoop s l1).stoppedExit = false →
    runLoop s (l1 ++ l2) =
      { finalState := (runLoop (runLoop s l1).finalState l2).finalState,
        states := (runLoop s l1).states ++ (runLoop (runLoop s l1).finalState l2).states,
        stoppingCalls := (runLoop s l1).stoppingCalls +
          (runLoop (runLoop s l1).finalState l2).stoppingCalls,
        stoppedExit := (runLoop (runLoop s l1).finalState l2).stoppedExit,
        exitByClosure := (runLoop (runLoop s l1).finalState l2).exitByClosure } := by
  induction l1 with
  | nil => intro s h; simp [runLoop]
  | cons i rest ih =>
    intro s h
    by_cases he : (loopIter s i).exits
    · simp [runLoop, he] at h
    · simp only [List.cons_append]
      simp [runLoop, he] at h ⊢
      rw [ih _ h]
      simp [List.append_assoc, Nat.add_assoc]

/-- A loop run that has not exited and still reports state Started never
invoked on_stopping and never recorded a state assignment. -/
theorem runLoop_started_noexit : ∀ (l : List IterInput),
    (runLoop ActorState.Started l).stoppedExit = false →
    (runLoop ActorState.Started l).finalState = ActorState.Started →
    (runLoop ActorState.Started l).states = [] ∧
    (runLoop ActorState.Started l).stoppingCalls = 0 := by
  intro l
  induction l with
  | nil => intro h1 h2; exact ⟨rfl, rfl⟩
  | cons i rest ih =>
    intro h1 h2
    rcases i with ⟨p, q, r⟩
    rcases r with c | c | _
    · cases c
      · simp only [runLoop, loopIter] at h1 h2 ⊢
        simp at h1 h2 ⊢
        exact ih h1 h2
      · have hfin := runLoop_stopping_final rest
        simp only [runLoop, loopIter] at h2
        simp [hfin] at h2
    · cases c
      · simp only [runLoop, loopIter] at h1 h2 ⊢
        simp at h1 h2 ⊢
        exact ih h1 h2
      · have hfin := runLoop_stopping_final rest
        simp only [runLoop, loopIter] at h2
        simp [hfin] at h2
    · simp only [runLoop, loopIter] at h1
      simp at h1

/-- Prefixing a pairwise-forward state list with Starting preserves
pairwise-forwardness, since Starting is the least state. -/
theorem pairwise_starting_cons (l : List ActorState) (h : List.Pairwise stateLe l) :
    List.Pairwise stateLe (ActorState.Starting :: l) :=
  List.pairwise_cons.mpr ⟨fun _ _ => Nat.zero_le _, h⟩

/-- A list all of whose members are Stopping is pairwise forward. -/
theorem pairwise_const_stopping (m : List ActorState)
    (hm : ∀ x ∈ m, x = ActorState.Stopping) : List.Pairwise stateLe m := by
  induction m with
  | nil => exact List.Pairwise.nil
  | cons a t ih =>
    refine List.Pairwise.cons ?_ (ih (fun x hx => hm x (List.mem_cons_of_mem a hx)))
    intro b hb
    rw [hm a (List.mem_cons_self a t), hm b (List.mem_cons_of_mem a hb)]
    exact Nat.le_refl _

/-- Started followed by Stopping assignments and a forward tail whose
members are at or after Stopping is pairwise forward. -/
theorem pairwise_started_tail (m X : List ActorState)
    (hm : ∀ x ∈ m, x = ActorState.Stopping)
    (hX : List.Pairwise stateLe X)
    (hSX : ∀ y ∈ X, stateLe ActorState.Stopping y) :
    List.Pairwise stateLe (ActorState.Started :: (m ++ X)) := by
  refine List.pairwise_cons.mpr ⟨?_, ?_⟩
  · intro b hb
    rcases List.mem_append.mp hb with h | h
    · rw [hm b h]
      decide
    · exact Nat.le_trans (by decide) (hSX b h)
  · refine List.pairwise_append.mpr ⟨pairwise_const_stopping m hm, hX, ?_⟩
    intro x hx y hy
    rw [hm x hx]
    exact hSX y hy

/-- C1 counterexample: the lifecycle state machine is not linear for every
hook behaviour.  When on_start calls Context::stop the task assigns
Stopping and then unconditionally assigns Started, so the state history of
that run (here with a single closure-report iteration) is
Starting, Stopping, Started, Stopped, which moves backward from Stopping to
Started. -/
theorem c1_counterexample :
    ¬ List.Pairwise stateLe
      (runActor true false
        [{ proceed := false, hookStops := false, recv := RecvEvent.pubClosed }]).trace := by
  decide

/-- C1 amended: the state history of a run is pairwise forward once the two
assignments preceding the unconditional Started assignment are discarded
when on_start calls stop; in particular when on_start does not call stop
(the drop is zero) the entire history is linear, and in every run the
history from the Started assignment onward is linear, so the only backward
transition the code can make is the Stopping-to-Started overwrite right
after on_start. -/
theorem c1_amended (startStops stoppedStops : Bool) (inputs : List IterInput) :
    List.Pairwise stateLe
      ((runActor startStops stoppedStops inputs).trace.drop
        (if startStops then 2 else 0)) := by
  have hm := states_stopping inputs ActorState.Started
  unfold runActor
  by_cases hex : (runLoop ActorState.Started inputs).stoppedExit
  · cases startStops <;> cases stoppedStops <;>
      simp [hex, -List.pairwise_cons]
    · exact pairwise_starting_cons _
        (pairwise_started_tail _ [ActorState.Stopped] hm (by decide) (by decide))
    · exact pairwise_starting_cons _
        (pairwise_started_tail _ [ActorState.Stopping, ActorState.Stopped] hm
          (by decide) (by decide))
    · exact pairwise_started_tail _ [ActorState.Stopped] hm (by decide) (by decide)
    · exact pairwise_started_tail _ [ActorState.Stopping, ActorState.Stopped] hm
        (by decide) (by decide)
  · have h0 := pairwise_started_tail _ [] hm List.Pairwise.nil (by simp)
    rw [List.append_nil] at h0
    cases startStops <;> cases stoppedStops <;>
      simp [hex, -List.pairwise_cons]
    · exact pairwise_starting_cons _ h0
    · exact pairwise_starting_cons _ h0
    · exact h0
    · exact h0

/-- C2: for a running actor (the loop has processed a prefix of iterations
without exiting and the state is still Started), an iteration in which the
public-queue receive reports closure exits the loop immediately: the rest
of the inputs are ignored, on_stopping is never invoked (in the whole run,
so its consent is not required), on_stopped runs exactly once, and the
final state assignment is Stopped. -/
theorem c2_abandonment (startStops stoppedStops p q : Bool)
    (pre rest : List IterInput)
    (h1 : (runLoop ActorState.Started pre).stoppedExit = false)
    (h2 : (runLoop ActorState.Started pre).finalState = ActorState.Started) :
    (runActor startStops stoppedStops
      (pre ++ { proceed := p, hookStops := q, recv := RecvEvent.pubClosed } :: rest)).finished
        = true ∧
    (runActor startStops stoppedStops
      (pre ++ { proceed := p, hookStops := q, recv := RecvEvent.pubClosed } :: rest)).exitByClosure
        = true ∧
    (runActor startStops stoppedStops
      (pre ++ { proceed := p, hookStops := q, recv := RecvEvent.pubClosed } :: rest)).stoppingCalls
        = 0 ∧
    (runActor startStops stoppedStops
      (pre ++ { proceed := p, hookStops := q, recv := RecvEvent.pubClosed } :: rest)).stoppedCalls
        = 1 ∧
    (runActor startStops stoppedStops
      (pre ++ { proceed := p, hookStops := q, recv := RecvEvent.pubClosed } :: rest)).trace.getLast?
        = some ActorState.Stopped := by
  have hstep : runLoop ActorState.Started
      ({ proceed := p, hookStops := q, recv := RecvEvent.pubClosed } :: rest) =
      { finalState := ActorState.Started, states := [], stoppingCalls := 0,
        stoppedExit := true, exitByClosure := true } := by
    cases p <;> rfl
  have happ := runLoop_append pre
    ({ proceed := p, hookStops := q, recv := RecvEvent.pubClosed } :: rest)
    ActorState.Started h1
  rw [h2, hstep] at happ
  obtain ⟨hst, hsc⟩ := runLoop_started_noexit pre h1 h2
  unfold runActor
  rw [happ]
  cases startStops <;> cases stoppedStops <;> simp [hst, hsc]

/-- C2 witness: a concrete run that dispatches one public message and then
observes the closure report. -/
theorem c2_abandonment_witness :
    (runActor false false
      ([{ proceed := false, hookStops := false, recv := RecvEvent.pubMsg false }] ++
        { proceed := true, hookStops := false, recv := RecvEvent.pubClosed } :: [])).finished
        = true ∧
    (runActor false false
      ([{ proceed := false, hookStops := false, recv := RecvEvent.pubMsg false }] ++
        { proceed := true, hookStops := false, recv := RecvEvent.pubClosed } :: [])).exitByClosure
        = true ∧
    (runActor false false
      ([{ proceed := false, hookStops := false, recv := RecvEvent.pubMsg false }] ++
        { proceed := true, hookStops := false, recv := RecvEvent.pubClosed } :: [])).stoppingCalls
        = 0 ∧
    (runActor false false
      ([{ proceed := false, hookStops := false, recv := RecvEvent.pubMsg false }] ++
        { proceed := true, hookStops := false, recv := RecvEvent.pubClosed } :: [])).stoppedCalls
        = 1 ∧
    (runActor false false
      ([{ proceed := false, hookStops := false, recv := RecvEvent.pubMsg false }] ++
        { proceed := true, hookStops := false, recv := RecvEvent.pubClosed } :: [])).trace.getLast?
        = some ActorState.Stopped :=
  c2_abandonment false false true false
    [{ proceed := false, hookStops := false, recv := RecvEvent.pubMsg false }] []
    (by decide) (by decide)

/-- C9 amended: stop() always sets the state field to Stopping and touches
nothing else, so stop composed with itself equals a single stop, and a
stop() issued while the state is already Stopping leaves the Context
unchanged; a stop() issued on a Stopped context, however, moves the state
back to Stopping. -/
theorem c9_amended : ∀ {α : Type} (c : Context α),
    Context.stop (Context.stop c) = Context.stop c ∧
    (Context.stop c).state = ActorState.Stopping ∧
    (Context.stop c).address = c.address ∧
    (Context.stop c).private_address = c.private_address := by
  intro α c
  exact ⟨rfl, rfl, rfl, rfl⟩

/-- Observable state of a Pool (src/pool.rs) together with the guards it
has handed out: buffer is the FIFO content of the pool's unbounded channel
(what actors_rx will yield, in order), and held is the list of addresses
currently inside live PoolAddress guards, in checkout order.  held is ghost
state used to express the checkout and return discipline. -/
structure PoolModel (α : Type) where
  buffer : List α
  held : List α
deriving DecidableEq, Repr

/-- Pool::with_spawner from src/pool.rs: creates the unbounded channel and
sends spawner.spawn_run() into it instances times.  Each spawn_run call
runs a fresh actor with its own queue, so the k-th pre-spawned address is
modelled as spawnRun k. -/
def Pool.withSpawner {α : Type} (spawnRun : Nat → α) (instances : Nat) : PoolModel α :=
  { buffer := (List.range instances).map spawnRun, held := [] }

/-- Pool::take from src/pool.rs, restricted to the case where an address is
queued: recv the next address and wrap it in a PoolAddress guard (recorded
in held).  When the buffer is momentarily empty, take suspends; the waiting
case is modelled separately by Pool.takeStep. -/
def Pool.take {α : Type} (p : PoolModel α) : Option (α × PoolModel α) :=
  match p.buffer with
  | a :: rest => some (a, { buffer := rest, held := p.held ++ [a] })
  | [] => none

/-- Drop for PoolAddress from src/pool.rs: when a guard's scope ends it
sends a clone of its address back into the pool's channel; the guard (and
the sender clone it holds) then disappears. -/
def PoolAddress.drop {α : Type} [DecidableEq α] (p : PoolModel α) (a : α) : PoolModel α :=
  if a ∈ p.held then { buffer := p.buffer ++ [a], held := p.held.erase a } else p

/-- One step of a pool session: a take (a no-op while the buffer is empty,
since take would suspend) or the end of scope of a guard holding address
a. -/
inductive PoolOp (α : Type) where
  | take
  | release (a : α)
deriving DecidableEq, Repr

/-- Apply one pool operation. -/
def poolStep {α : Type} [DecidableEq α] (p : PoolModel α) : PoolOp α → PoolModel α
  | PoolOp.take =>
    match Pool.take p with
    | some (_, q) => q
    | none => p
  | PoolOp.release a => PoolAddress.drop p a

/-- Apply a sequence of pool operations. -/
def poolRun {α : Type} [DecidableEq α] (p : PoolModel α) (ops : List (PoolOp α)) :
    PoolModel α :=
  List.foldl poolStep p ops

/-- One pool operation permutes the combined contents of the buffer and the
outstanding guards: nothing is created, discarded or duplicated. -/
theorem poolStep_perm {α : Type} [DecidableEq α] (p : PoolModel α) (op : PoolOp α) :
    ((poolStep p op).buffer ++ (poolStep p op).held).Perm (p.buffer ++ p.held) := by
  cases op with
  | take =>
    cases hb : p.buffer with
    | nil => simp [poolStep, Pool.take, hb]
    | cons a rest =>
      simp [poolStep, Pool.take, hb]
      have h := List.perm_append_singleton a (rest ++ p.held)
      rw [List.append_assoc] at h
      exact h
  | release a =>
    by_cases ha : a ∈ p.held
    · simp [poolStep, PoolAddress.drop, ha]
      exact List.Perm.append_left p.buffer (List.perm_cons_erase ha).symm
    · simp [poolStep, PoolAddress.drop, ha]

/-- A whole pool session permutes the combined contents of the buffer and
the outstanding guards. -/
theorem poolRun_perm {α : Type} [DecidableEq α] (ops : List (PoolOp α)) :
    ∀ (p : PoolModel α),
    ((poolRun p ops).buffer ++ (poolRun p ops).held).Perm (p.buffer ++ p.held) := by
  induction ops with
  | nil => intro p; exact List.Perm.refl _
  | cons op rest ih =>
    intro p
    exact (ih (poolStep p op)).trans (poolStep_perm p op)

/-- C6: a pool built with instance count N pre-spawns exactly the N
addresses produced by the spawner and holds them all in its buffer; for
every sequence of take and release operations the combined contents of the
buffer and the outstanding guards is a permutation of those N addresses, so
no checkout creates an instance beyond them and every checked-out address
is returned exactly once, never discarded and never duplicated; concretely,
with N = 2 two take calls with no release in between yield the distinct
addresses 0 and 1, emptying the buffer, and after releasing 0 the next take
returns that same address 0. -/
theorem c6_pool :
    (∀ (N : Nat) (f : Nat → Nat),
      (Pool.withSpawner f N).buffer = (List.range N).map f ∧
      (Pool.withSpawner f N).buffer.length = N ∧
      (Pool.withSpawner f N).held = []) ∧
    (∀ (N : Nat) (ops : List (PoolOp Nat)),
      ((poolRun (Pool.withSpawner (fun i => i) N) ops).buffer ++
        (poolRun (Pool.withSpawner (fun i => i) N) ops).held).Perm (List.range N)) ∧
    Pool.take (Pool.withSpawner (fun i => i) 2) =
      some (0, { buffer := [1], held := [0] }) ∧
    Pool.take ({ buffer := [1], held := [0] } : PoolModel Nat) =
      some (1, { buffer := [], held := [0, 1] }) ∧
    (0 : Nat) ≠ 1 ∧
    PoolAddress.drop ({ buffer := [], held := [0, 1] } : PoolModel Nat) 0 =
      { buffer := [0], held := [1] } ∧
    Pool.take ({ buffer := [0], held := [1] } : PoolModel Nat) =
      some (0, { buffer := [], held := [1, 0] }) := by
  refine ⟨?_, ?_, rfl, rfl, by decide, by decide, rfl⟩
  · intro N f
    exact ⟨rfl, by simp [Pool.withSpawner], rfl⟩
  · intro N ops
    have h := poolRun_perm ops (Pool.withSpawner (fun i => i) N)
    simpa [Pool.withSpawner] using h

/-- The pool's unbounded channel as Pool::take observes it: the Pool value
itself holds actors_tx for its whole life, and each live PoolAddress guard
holds a clone of it, so the live sender count is one more than the number
of outstanding guards. -/
def poolUChan {α : Type} (p : PoolModel α) : UChan α :=
  { senders := 1 + p.held.length, buffer := p.buffer }

/-- Polling tokio UnboundedReceiver::recv once: a queued message when one
is present, the closure report (recv returns None) exactly when the
channel is empty and every sender has been dropped, and pending
otherwise. -/
def UChan.recvNow {α : Type} (c : UChan α) : Option (Option α) :=
  match c.buffer with
  | a :: _ => some (some a)
  | [] => if c.senders = 0 then some none else none

/-- What Pool::take's recv().await.unwrap() does on one poll: yields an
address, panics (unwrap of the closure report None), or keeps waiting for
a guard to return an address. -/
inductive TakeResult (α : Type) where
  | got (a : α)
  | panicked
  | waits
deriving DecidableEq, Repr

/-- Pool::take from src/pool.rs including its unwrap: receive from the
pool's channel and unwrap the result. -/
def Pool.takeStep {α : Type} (p : PoolModel α) : TakeResult α :=
  match UChan.recvNow (poolUChan p) with
  | some (some a) => TakeResult.got a
  | some none => TakeResult.panicked
  | none => TakeResult.waits

/-- While a Pool value exists its channel retains at least one sender, so
the receive inside take can never observe closure and the unwrap can never
panic. -/
theorem takeStep_never_panics {α : Type} (p : PoolModel α) :
    Pool.takeStep p ≠ TakeResult.panicked := by
  unfold Pool.takeStep UChan.recvNow poolUChan
  cases hb : p.buffer with
  | nil => simp
  | cons a rest => simp

/-- C10: for every pool and every sequence of take and release operations,
the receive inside Pool::take never observes a closed channel and the
unwrap never panics, because the Pool itself retains a producer handle to
its own internal channel. -/
theorem c10_take_no_panic : ∀ (N : Nat) (ops : List (PoolOp Nat)),
    Pool.takeStep (poolRun (Pool.withSpawner (fun i => i) N) ops) ≠
      TakeResult.panicked := by
  intro N ops
  exact takeStep_never_panics _

/-- Trace of the background task spawned by notify_interval: the messages
handed to send, in tick order, and whether the task terminated within the
observed ticks. -/
structure IntervalTrace (M : Type) where
  sent : List M
  finishedTask : Bool
deriving DecidableEq, Repr

/-- UnboundedAddress::notify_interval from src/address.rs: the spawned task
loops awaiting the interval tick, constructs a fresh message with
create_message(), sends it as a request, and breaks the first time send
returns an error.  create_message is indexed by tick to record that a new
message is built on every period; sendOk is the oracle giving each tick's
delivery outcome (false from the point the actor is gone); fuel bounds how
many ticks are observed. -/
def notifyIntervalRun {M : Type} (create_message : Nat → M) (sendOk : Nat → Bool) :
    Nat → Nat → IntervalTrace M
  | 0, _ => { sent := [], finishedTask := false }
  | fuel + 1, tick =>
    if sendOk tick then
      { sent := create_message tick ::
          (notifyIntervalRun create_message sendOk fuel (tick + 1)).sent,
        finishedTask := (notifyIntervalRun create_message sendOk fuel (tick + 1)).finishedTask }
    else
      { sent := [create_message tick], finishedTask := true }

/-- Splitting off the first element of a shifted range map. -/
theorem map_range_shift {M : Type} (f : Nat → M) (n tick : Nat) :
    (List.range (n + 1)).map (fun i => f (tick + i)) =
      f tick :: (List.range n).map (fun i => f (tick + 1 + i)) := by
  rw [List.range_succ_eq_map]
  simp only [List.map_cons, List.map_map, Nat.add_zero]
  refine congrArg (fun t => f tick :: t) ?_
  apply List.map_congr_left
  intro i _
  simp only [Function.comp_apply]
  rw [show tick + (i + 1) = tick + 1 + i from by omega]

/-- Behaviour of the notify_interval task from an arbitrary starting tick:
if the first delivery failure happens j periods in, the task sends exactly
the j + 1 freshly built messages of those periods and terminates. -/
theorem notifyInterval_shifted {M : Type} (f : Nat → M) (ok : Nat → Bool) :
    ∀ (j fuel tick : Nat), j < fuel →
    (∀ i, i < j → ok (tick + i) = true) → ok (tick + j) = false →
    (notifyIntervalRun f ok fuel tick).sent =
      (List.range (j + 1)).map (fun i => f (tick + i)) ∧
    (notifyIntervalRun f ok fuel tick).finishedTask = true := by
  intro j
  induction j with
  | zero =>
    intro fuel tick hj hbef hfail
    cases fuel with
    | zero => omega
    | succ f' =>
      simp only [Nat.add_zero] at hfail
      refine ⟨?_, ?_⟩
      · rw [map_range_shift f 0 tick]
        simp [notifyIntervalRun, hfail]
      · simp [notifyIntervalRun, hfail]
  | succ j' ih =>
    intro fuel tick hj hbef hfail
    cases fuel with
    | zero => omega
    | succ f' =>
      have h0 : ok tick = true := by
        have h := hbef 0 (Nat.succ_pos j')
        simpa using h
      have ihh := ih f' (tick + 1) (by omega)
        (fun i hi => by
          rw [show tick + 1 + i = tick + (i + 1) from by omega]
          exact hbef (i + 1) (by omega))
        (by
          rw [show tick + 1 + j' = tick + (j' + 1) from by omega]
          exact hfail)
      refine ⟨?_, ?_⟩
      · rw [map_range_shift f (j' + 1) tick]
        simp [notifyIntervalRun, h0, ihh.1]
      · simp [notifyIntervalRun, h0, ihh.2]

/-- C7: the notify_interval background task builds a fresh message from the
factory once per period and sends it; it terminates at the first tick whose
delivery fails (the actor is gone), having sent exactly the messages of
ticks 0 through j, and issues no further sends afterwards. -/
theorem c7_notify_interval {M : Type} (create_message : Nat → M) (sendOk : Nat → Bool)
    (fuel j : Nat) (hj : j < fuel)
    (hbefore : ∀ i, i < j → sendOk i = true) (hfail : sendOk j = false) :
    (notifyIntervalRun create_message sendOk fuel 0).sent =
      (List.range (j + 1)).map create_message ∧
    (notifyIntervalRun create_message sendOk fuel 0).finishedTask = true := by
  have h := notifyInterval_shifted create_message sendOk j fuel 0 hj
    (fun i hi => by simpa using hbefore i hi) (by simpa using hfail)
  simpa using h

/-- C7 witness: with delivery failing from tick 2 on, the task sends the
three messages of ticks 0, 1, 2 and terminates. -/
theorem c7_notify_interval_witness :
    (notifyIntervalRun (fun n => n) (fun n => decide (n < 2)) 9 0).sent =
      (List.range (2 + 1)).map (fun n => n) ∧
    (notifyIntervalRun (fun n => n) (fun n => decide (n < 2)) 9 0).finishedTask = true :=
  c7_notify_interval (fun n => n) (fun n => decide (n < 2)) 9 2 (by decide)
    (fun i hi => by simpa using hi) (by decide)

end Akt
